import Mathlib

/-!
Shallow embedding of the `resulting` library (TypeScript), files
`src/result.ts`, `src/run-catching.ts`, `src/result-catching.extension.ts`.

TypeScript generics are erased at runtime, and several observable behaviours
of the library depend on untyped JavaScript facts (a `Success` payload may be
`null` or `undefined`; property access on an object lacking the property
yields `undefined`; `x == null` is loose equality). The embedding therefore
works over a small universe `JSVal` of JavaScript runtime values and renders
each method as a total Lean function over it. Callback side effects are
rendered by state passing: the `...Traced` variants are the same source
lines with the list of arguments each callback is applied to made explicit.
-/

/-- A JavaScript runtime value, as far as the library observes it:
`null`, `undefined`, strings, numbers, booleans, `Error` objects carrying a
message, and any other object identified by its `toString` representation. -/
inductive JSVal where
  | null
  | undefined
  | str (s : String)
  | num (n : Int)
  | boolean (b : Bool)
  | error (message : String)
  | object (rep : String)
  deriving DecidableEq, Repr

namespace JSVal

/-- The JavaScript conversion `String(v)`. On objects it delegates to the
`toString` method; on an `Error` with message `m` that yields `Error: m`. -/
def jsString : JSVal → String
  | .null => "null"
  | .undefined => "undefined"
  | .str s => s
  | .num n => toString n
  | .boolean b => if b then "true" else "false"
  | .error message => "Error: " ++ message
  | .object rep => rep

/-- The JavaScript `typeof` operator (note `typeof null` is `object`). -/
def typeofJS : JSVal → String
  | .null => "object"
  | .undefined => "undefined"
  | .str _ => "string"
  | .num _ => "number"
  | .boolean _ => "boolean"
  | .error _ => "object"
  | .object _ => "object"

/-- The JavaScript test `v instanceof Error`. -/
def instanceofError : JSVal → Bool
  | .error _ => true
  | _ => false

/-- JavaScript truthiness of a value. -/
def truthy : JSVal → Bool
  | .null => false
  | .undefined => false
  | .str s => s ≠ ""
  | .num n => n ≠ 0
  | .boolean b => b
  | .error _ => true
  | .object _ => true

/-- The JavaScript loose comparison `v == null`, true exactly for `null`
and `undefined`. The source uses it in `value != null` and
`error == null` checks. -/
def looseEqNull : JSVal → Bool
  | .null => true
  | .undefined => true
  | _ => false

end JSVal

/-- The `Result` type of `src/result.ts`: a closed sum of the two subclasses
`Success` (field `value`) and `Failure` (field `error`). The protected
constructor means every instance reachable through the public API is one of
these two. -/
inductive Result where
  | Success (value : JSVal)
  | Failure (error : JSVal)
  deriving DecidableEq, Repr

namespace Result

/-- Static constructor `Result.success(value)` (the zero argument overload
passes `undefined` through, so `Result.success()` is `success undefined`). -/
def success (value : JSVal) : Result := Result.Success value

/-- Static constructor `Result.failure(error)` (the zero argument overload
passes `undefined` through, so `Result.failure()` is `failure undefined`). -/
def failure (error : JSVal) : Result := Result.Failure error

/-- Getter `isSuccess`: `this instanceof Success`. -/
def isSuccess : Result → Bool
  | .Success _ => true
  | .Failure _ => false

/-- Getter `isFailure`: `this instanceof Failure`. -/
def isFailure : Result → Bool
  | .Success _ => false
  | .Failure _ => true

/-- Protected getter `rawValue`: the `value` field on a Success, the `error`
field on a Failure. -/
def rawValue : Result → JSVal
  | .Success value => value
  | .Failure error => error

/-- JavaScript property access `this.value`: the `value` field exists only on
the Success subclass, so on a Failure instance the access yields `undefined`.
Used by `mapCatching` in `src/result-catching.extension.ts`. -/
def valueProp : Result → JSVal
  | .Success value => value
  | .Failure _ => JSVal.undefined

/-- Method `getOrNull` (result.ts lines 89 to 94): if `isSuccess` return
`rawValue`, else return `null`. -/
def getOrNull (r : Result) : JSVal :=
  if r.isSuccess then r.rawValue else JSVal.null

/-- Method `errorOrNull` (result.ts lines 146 to 149): if `isFailure` return
`rawValue`, else return `null`. -/
def errorOrNull (r : Result) : JSVal :=
  if r.isFailure then r.rawValue else JSVal.null

/-- Method `getOrDefault` (result.ts lines 115 to 121): take `getOrNull()`
and return it when `value != null` (loose comparison), else the default. -/
def getOrDefault (r : Result) (defaultValue : JSVal) : JSVal :=
  let value := r.getOrNull
  if !value.looseEqNull then value else defaultValue

/-- Method `getOrElse` (result.ts lines 132 to 138): take `errorOrNull()`;
when `error == null` (loose comparison) return `rawValue`, else return
`onFailure(error)`. -/
def getOrElse (r : Result) (onFailure : JSVal → JSVal) : JSVal :=
  let error := r.errorOrNull
  if error.looseEqNull then r.rawValue else onFailure error

/-- Method `map` (result.ts lines 162 to 165): on success wrap
`transform(rawValue)` as a new Success, else wrap `rawValue` as a new
Failure. -/
def map (r : Result) (transform : JSVal → JSVal) : Result :=
  if r.isSuccess then Result.success (transform r.rawValue)
  else Result.failure r.rawValue

/-- Method `mapError` (result.ts lines 178 to 181): on failure wrap
`transform(rawValue)` as a new Failure, else wrap `rawValue` as a new
Success. -/
def mapError (r : Result) (transform : JSVal → JSVal) : Result :=
  if r.isFailure then Result.failure (transform r.rawValue)
  else Result.success r.rawValue

/-- The handlers object accepted by the named form of `fold`. -/
structure FoldHandlers where
  onSuccess : JSVal → JSVal
  onFailure : JSVal → JSVal

/-- Positional form of `fold` (result.ts lines 225 to 226): on success call
`handlers` on the `value` field, else call `onFailure` on the `error`
field. -/
def fold (r : Result) (onSuccess onFailure : JSVal → JSVal) : JSVal :=
  match r with
  | .Success value => onSuccess value
  | .Failure error => onFailure error

/-- Named form of `fold` (result.ts lines 220 to 222): when the first
argument is an object, destructure `onSuccess` and `onFailure` from it and
call the positional form. -/
def foldHandlers (r : Result) (handlers : FoldHandlers) : JSVal :=
  r.fold handlers.onSuccess handlers.onFailure

/-- Method `recover` (result.ts lines 239 to 245): take `errorOrNull()`;
when `error == null` (loose comparison) return `this`, else wrap
`transform(error)` as a new Success. -/
def recover (r : Result) (transform : JSVal → JSVal) : Result :=
  let error := r.errorOrNull
  if error.looseEqNull then r else Result.success (transform error)

/-- Method `onSuccess` (result.ts lines 255 to 258): if `isSuccess` run
`action(rawValue)` for its side effect, then return `this`. Rendered by
state passing: the second component lists the arguments `action` is applied
to. -/
def onSuccess (r : Result) : Result × List JSVal :=
  (r, if r.isSuccess then [r.rawValue] else [])

/-- Method `onFailure` (result.ts lines 268 to 271): if `isFailure` run
`action(rawValue)` for its side effect, then return `this`. Rendered by
state passing: the second component lists the arguments `action` is applied
to. -/
def onFailure (r : Result) : Result × List JSVal :=
  (r, if r.isFailure then [r.rawValue] else [])

/-- Method `toString` (result.ts lines 280 to 282): `String(this.rawValue)`. -/
def toString (r : Result) : String :=
  r.rawValue.jsString

end Result

/-- The single observable outcome of invoking a zero argument JavaScript
function: it either returns a value or throws one. -/
inductive BlockOutcome where
  | ret (v : JSVal)
  | thr (x : JSVal)
  deriving DecidableEq, Repr

/-- Helper extracting the string payload of a string value; only reached
after a `typeof x === string` test. -/
def JSVal.stringPayload : JSVal → String
  | .str s => s
  | _ => ""

/-- Function `runCatching` (run-catching.ts lines 12 to 25): invoke the block
once; wrap a normal return as Success; catch a thrown value and normalize it:
a string becomes `new Error(string)`, an `Error` instance passes through, a
truthy object becomes `new Error(x.toString())`, anything else becomes
`new Error(String(x))`. The block argument is embedded as the outcome of its
single invocation, and the return type being `Result` (not an exception
monad) renders that no exception propagates. -/
def runCatching (block : BlockOutcome) : Result :=
  match block with
  | .ret value => Result.success value
  | .thr error =>
    if error.typeofJS = "string" then Result.failure (JSVal.error error.stringPayload)
    else if error.instanceofError then Result.failure error
    else if error.typeofJS = "object" && error.truthy then
      Result.failure (JSVal.error error.jsString)
    else Result.failure (JSVal.error error.jsString)

namespace Result

/-- Method `mapCatching` (result-catching.extension.ts lines 31 to 36): on
success, `runCatching(() => transform(this.value))`; otherwise
`Result.failure(this.value as Error)`. Note the failure branch reads the
`value` property, which does not exist on the Failure subclass, so it reads
`undefined`. A transform that may throw is embedded as a function into
`BlockOutcome`. -/
def mapCatching (r : Result) (transform : JSVal → BlockOutcome) : Result :=
  if r.isSuccess then runCatching (transform r.valueProp)
  else Result.failure r.valueProp

/-- Method `recoverCatching` (result-catching.extension.ts lines 38 to 42):
take `errorOrNull()`; when `error == null` return `this`, else
`runCatching(() => transform(error))`. -/
def recoverCatching (r : Result) (transform : JSVal → BlockOutcome) : Result :=
  let error := r.errorOrNull
  if error.looseEqNull then r else runCatching (transform error)

/-- Trace rendering of `map`: the same branch structure with the list of
arguments `transform` is applied to made explicit. -/
def mapTraced (r : Result) (transform : JSVal → JSVal) : Result × List JSVal :=
  if r.isSuccess then (Result.success (transform r.rawValue), [r.rawValue])
  else (Result.failure r.rawValue, [])

/-- Trace rendering of `mapError`: the same branch structure with the list of
arguments `transform` is applied to made explicit. -/
def mapErrorTraced (r : Result) (transform : JSVal → JSVal) : Result × List JSVal :=
  if r.isFailure then (Result.failure (transform r.rawValue), [r.rawValue])
  else (Result.success r.rawValue, [])

/-- Trace rendering of `recover`: the same branch structure with the list of
arguments `transform` is applied to made explicit. -/
def recoverTraced (r : Result) (transform : JSVal → JSVal) : Result × List JSVal :=
  let error := r.errorOrNull
  if error.looseEqNull then (r, [])
  else (Result.success (transform error), [error])

/-- Trace rendering of the positional `fold`: the same branch structure with
the handler invocations made explicit; `Sum.inl v` records a call of
`onSuccess` on `v`, `Sum.inr e` a call of `onFailure` on `e`. -/
def foldTraced (r : Result) (onSuccess onFailure : JSVal → JSVal) :
    JSVal × List (JSVal ⊕ JSVal) :=
  match r with
  | .Success value => (onSuccess value, [Sum.inl value])
  | .Failure error => (onFailure error, [Sum.inr error])

/-- Trace rendering of `mapCatching`: the same branch structure with the list
of arguments `transform` is applied to made explicit. -/
def mapCatchingTraced (r : Result) (transform : JSVal → BlockOutcome) :
    Result × List JSVal :=
  if r.isSuccess then (runCatching (transform r.valueProp), [r.valueProp])
  else (Result.failure r.valueProp, [])

/-- Trace rendering of `recoverCatching`: the same branch structure with the
list of arguments `transform` is applied to made explicit. -/
def recoverCatchingTraced (r : Result) (transform : JSVal → BlockOutcome) :
    Result × List JSVal :=
  let error := r.errorOrNull
  if error.looseEqNull then (r, [])
  else (runCatching (transform error), [error])

end Result

/-- C1: getOrNull branches on the variant tag and so treats a null payload
Success as success; getOrDefault instead checks the payload against null, so
a Success carrying null yields the default value instead of the stored null
payload, contradicting the claim (and the JSDoc of getOrDefault). -/
theorem c1_getOrNull_tag_based_getOrDefault_payload_based :
    (∀ v, Result.getOrNull (Result.success v) = v)
    ∧ (∀ e, Result.getOrNull (Result.failure e) = JSVal.null)
    ∧ (∀ v d, JSVal.looseEqNull v = false →
        Result.getOrDefault (Result.success v) d = v)
    ∧ (∀ d, Result.getOrDefault (Result.failure (JSVal.error "e")) d = d)
    ∧ Result.getOrDefault (Result.success JSVal.null) (JSVal.str "d") = JSVal.str "d"
    ∧ JSVal.str "d" ≠ JSVal.null := by
  refine ⟨fun v => rfl, fun e => rfl, ?_, fun d => rfl, rfl, by decide⟩
  intro v d h
  simp [Result.getOrDefault, Result.getOrNull, Result.isSuccess, Result.rawValue,
    Result.success, h]

/-- Witness for c1: the non-null-payload clause instantiated at a concrete
string payload. -/
theorem c1_getOrNull_tag_based_getOrDefault_payload_based_witness :
    JSVal.looseEqNull (JSVal.str "v") = false
    ∧ Result.getOrDefault (Result.success (JSVal.str "v")) (JSVal.str "d") = JSVal.str "v" :=
  ⟨by decide,
    c1_getOrNull_tag_based_getOrDefault_payload_based.2.2.1 (JSVal.str "v") (JSVal.str "d")
      (by decide)⟩

/-- C2: toString returns only String(rawValue), the payload representation
alone, never the variant tag, contradicting the claim (and the JSDoc and the
README, which promise Success(v) and Failure(x)). -/
theorem c2_toString_payload_only :
    Result.toString (Result.success (JSVal.str "x")) = "x"
    ∧ Result.toString (Result.failure (JSVal.error "y")) = "Error: y"
    ∧ Result.toString (Result.success (JSVal.str "x")) ≠ "Success(x)"
    ∧ Result.toString (Result.failure (JSVal.error "y")) ≠ "Failure(Error: y)" := by
  refine ⟨rfl, rfl, by decide, by decide⟩

/-- C3: mapCatching on a Failure reads the value property, which does not
exist on the Failure subclass, so the produced Failure carries undefined
instead of the original error, contradicting the claim (and the extension
test, which expects the original error to pass through). The transform is
indeed never invoked on a Failure, and the other three clauses of the claim
hold, as the remaining conjuncts show. -/
theorem c3_mapCatching_failure_drops_error :
    Result.mapCatching (Result.failure (JSVal.error "boom")) (fun v => BlockOutcome.ret v)
      = Result.failure JSVal.undefined
    ∧ (Result.mapCatchingTraced (Result.failure (JSVal.error "boom"))
        (fun v => BlockOutcome.ret v)).2 = []
    ∧ (∀ v x, Result.mapCatching (Result.success v) (fun _ => BlockOutcome.thr x)
        = runCatching (BlockOutcome.thr x))
    ∧ (∀ v t, Result.recoverCatching (Result.success v) t = Result.success v
        ∧ (Result.recoverCatchingTraced (Result.success v) t).2 = [])
    ∧ (∀ m x, Result.recoverCatching (Result.failure (JSVal.error m))
        (fun _ => BlockOutcome.thr x) = runCatching (BlockOutcome.thr x)) := by
  exact ⟨rfl, rfl, fun v x => rfl, fun v t => ⟨rfl, rfl⟩, fun m x => rfl⟩

/-- C4: recover detects failure by comparing errorOrNull against null, so a
Failure whose stored error is undefined (as built by the zero argument
failure constructor) is returned unchanged as a Failure and the transform is
never applied, contradicting the claim (and the JSDoc of recover). The
Success identity half of the claim does hold. -/
theorem c4_recover_null_error_failure_untouched :
    (∀ v t, Result.recover (Result.success v) t = Result.success v
      ∧ (Result.recoverTraced (Result.success v) t).2 = [])
    ∧ (∀ t, Result.recover (Result.failure (JSVal.error "e")) t
        = Result.success (t (JSVal.error "e")))
    ∧ Result.recover (Result.failure JSVal.undefined) (fun _ => JSVal.str "recovered")
      = Result.failure JSVal.undefined := by
  exact ⟨fun v t => ⟨rfl, rfl⟩, fun t => rfl, rfl⟩

/-- C5: getOrElse detects failure by comparing errorOrNull against null, so a
Failure whose stored error is undefined returns its raw error payload
(undefined) instead of applying onFailure, contradicting the claim (and the
JSDoc of getOrElse). The Success half and the non-null-error Failure half do
hold. -/
theorem c5_getOrElse_null_error_returns_raw :
    (∀ v f, Result.getOrElse (Result.success v) f = v)
    ∧ (∀ m f, Result.getOrElse (Result.failure (JSVal.error m)) f = f (JSVal.error m))
    ∧ Result.getOrElse (Result.failure JSVal.undefined) (fun _ => JSVal.str "fallback")
      = JSVal.undefined := by
  exact ⟨fun v f => rfl, fun m f => rfl, rfl⟩

/-- C6: runCatching wraps a normal return as Success and normalizes any
thrown value into a Failure: a thrown string s becomes Error(s), a thrown
Error passes through unchanged, and every other thrown value (object, null,
undefined, number, boolean) becomes an Error built from its string
representation; the block is consumed as the outcome of its single
invocation and the result type is always Result, never a propagated
exception. -/
theorem c6_runCatching_normalizes :
    (∀ v, runCatching (BlockOutcome.ret v) = Result.success v)
    ∧ (∀ s, runCatching (BlockOutcome.thr (JSVal.str s)) = Result.failure (JSVal.error s))
    ∧ (∀ m, runCatching (BlockOutcome.thr (JSVal.error m)) = Result.failure (JSVal.error m))
    ∧ (∀ rep, runCatching (BlockOutcome.thr (JSVal.object rep))
        = Result.failure (JSVal.error rep))
    ∧ runCatching (BlockOutcome.thr JSVal.null) = Result.failure (JSVal.error "null")
    ∧ runCatching (BlockOutcome.thr JSVal.undefined)
      = Result.failure (JSVal.error "undefined")
    ∧ (∀ n, runCatching (BlockOutcome.thr (JSVal.num n))
        = Result.failure (JSVal.error (JSVal.jsString (JSVal.num n))))
    ∧ (∀ b, runCatching (BlockOutcome.thr (JSVal.boolean b))
        = Result.failure (JSVal.error (JSVal.jsString (JSVal.boolean b)))) := by
  exact ⟨fun v => rfl, fun s => rfl, fun m => rfl, fun rep => rfl, rfl, rfl,
    fun n => rfl, fun b => rfl⟩

/-- C7: fold is exhaustive, exactly one handler runs exactly once (onSuccess
on the stored value for a Success, onFailure on the stored error for a
Failure), its return value is the return value of fold, and the named
handlers form coincides with the positional form on every Result and every
handler pair. -/
theorem c7_fold_exhaustive_and_forms_coincide :
    (∀ r f1 f2, Result.foldHandlers r ⟨f1, f2⟩ = Result.fold r f1 f2)
    ∧ (∀ v f1 f2, Result.fold (Result.success v) f1 f2 = f1 v
        ∧ Result.foldTraced (Result.success v) f1 f2 = (f1 v, [Sum.inl v]))
    ∧ (∀ e f1 f2, Result.fold (Result.failure e) f1 f2 = f2 e
        ∧ Result.foldTraced (Result.failure e) f1 f2 = (f2 e, [Sum.inr e]))
    ∧ (∀ r f1 f2, (Result.foldTraced r f1 f2).2.length = 1) := by
  refine ⟨fun r f1 f2 => rfl, fun v f1 f2 => ⟨rfl, rfl⟩, fun e f1 f2 => ⟨rfl, rfl⟩, ?_⟩
  intro r f1 f2
  cases r <;> rfl

/-- C8: map transforms the payload of a Success and passes a Failure through
with the identical error payload, mapError transforms the payload of a
Failure and passes a Success through with the identical value, and in map,
mapError and recover the transform is never applied on the non-matching
variant and is applied at most once. -/
theorem c8_map_mapError_variant_conditional :
    (∀ v t, Result.map (Result.success v) t = Result.success (t v)
      ∧ Result.mapTraced (Result.success v) t = (Result.success (t v), [v]))
    ∧ (∀ e t, Result.map (Result.failure e) t = Result.failure e
      ∧ Result.mapTraced (Result.failure e) t = (Result.failure e, []))
    ∧ (∀ e t, Result.mapError (Result.failure e) t = Result.failure (t e)
      ∧ Result.mapErrorTraced (Result.failure e) t = (Result.failure (t e), [e]))
    ∧ (∀ v t, Result.mapError (Result.success v) t = Result.success v
      ∧ Result.mapErrorTraced (Result.success v) t = (Result.success v, []))
    ∧ (∀ v t, (Result.recoverTraced (Result.success v) t).2 = [])
    ∧ (∀ r t, (Result.recoverTraced r t).2.length ≤ 1) := by
  refine ⟨fun v t => ⟨rfl, rfl⟩, fun e t => ⟨rfl, rfl⟩, fun e t => ⟨rfl, rfl⟩,
    fun v t => ⟨rfl, rfl⟩, fun v t => rfl, ?_⟩
  intro r t
  cases r with
  | Success v =>
    simp [Result.recoverTraced, Result.errorOrNull, Result.isFailure, JSVal.looseEqNull]
  | Failure e =>
    by_cases h : JSVal.looseEqNull e = true
    · simp [Result.recoverTraced, Result.errorOrNull, Result.isFailure, Result.rawValue, h]
    · simp [Result.recoverTraced, Result.errorOrNull, Result.isFailure, Result.rawValue, h]

/-- C9: Result is a closed sum: every Result is exactly one of Success or
Failure, the public constructors produce the matching variant, and isSuccess
is the boolean negation of isFailure on every Result. -/
theorem c9_closed_sum :
    (∀ r : Result, r.isSuccess = !r.isFailure)
    ∧ (∀ r : Result, (∃ v, r = Result.success v) ∨ (∃ e, r = Result.failure e))
    ∧ (∀ v, (Result.success v).isSuccess = true)
    ∧ (∀ e, (Result.failure e).isFailure = true) := by
  refine ⟨?_, ?_, fun v => rfl, fun e => rfl⟩
  · intro r; cases r <;> rfl
  · intro r
    cases r with
    | Success v => exact Or.inl ⟨v, rfl⟩
    | Failure e => exact Or.inr ⟨e, rfl⟩

/-- C10: onSuccess and onFailure run the action only on the matching variant
(on the stored value for onSuccess on a Success, on the stored error for
onFailure on a Failure) and always return the original Result itself with
variant and payload unchanged. -/
theorem c10_onSuccess_onFailure_identity :
    (∀ r : Result, (Result.onSuccess r).1 = r ∧ (Result.onFailure r).1 = r)
    ∧ (∀ v, Result.onSuccess (Result.success v) = (Result.success v, [v])
      ∧ Result.onFailure (Result.success v) = (Result.success v, []))
    ∧ (∀ e, Result.onFailure (Result.failure e) = (Result.failure e, [e])
      ∧ Result.onSuccess (Result.failure e) = (Result.failure e, [])) := by
  exact ⟨fun r => ⟨rfl, rfl⟩, fun v => ⟨rfl, rfl⟩, fun e => ⟨rfl, rfl⟩⟩
